import Mathlib

/-!
Shallow embedding of the pure data-transform core of
src/twitter_data_ingestion.py (class TwitterExtractor).

The scraper drives a browser, but every claim under verification concerns
the pure logic of one run: the extract-then-delete loop of fetch_tweets
(date-range filtering, handle collection, min/max date tracking, the
iteration cap, intermediate snapshots), the output-file naming, the token
check of set_token, and the JSON/Excel/CSV serialization with
deduplication by url.

The browser interactions of one loop iteration are abstracted into a
PageEvent oracle: each iteration of the while loop consumes one event
describing what the page yielded on that iteration (no tweet found, an
exception while processing the tweet, or a successfully processed row).
Every real execution of the Python loop corresponds to one such event
trace.  File writes are modelled as a list of FileWrite values in write
order; the wall-clock timestamps that only name intermediate files are
not modelled.
-/

namespace TwitterIngestion

/-- Calendar date, the result of Python datetime.date(). -/
structure PyDate where
  year : Nat
  month : Nat
  day : Nat
deriving DecidableEq, Repr

/-- Python datetime value as used by the script.  The scraper always
feeds fromisoformat strings of the form produced by
row["date"].replace('Z', '+00:00'), i.e. naive or UTC timestamps, so the
offset is not stored: the model parser only accepts an empty offset or
+00:00 (see fromisoformat below). -/
structure PyDateTime where
  year : Nat
  month : Nat
  day : Nat
  hour : Nat
  minute : Nat
  second : Nat
  microsecond : Nat
deriving DecidableEq, Repr

/-- datetime.date() of a datetime. -/
def PyDateTime.date (d : PyDateTime) : PyDate :=
  ⟨d.year, d.month, d.day⟩

/-- Strict comparison of calendar dates (Python date < date). -/
def PyDate.lt (a b : PyDate) : Bool :=
  if a.year < b.year then true
  else if b.year < a.year then false
  else if a.month < b.month then true
  else if b.month < a.month then false
  else decide (a.day < b.day)

/-- Strict comparison of datetimes (Python datetime < datetime),
lexicographic on all stored fields. -/
def PyDateTime.lt (a b : PyDateTime) : Bool :=
  if a.year < b.year then true
  else if b.year < a.year then false
  else if a.month < b.month then true
  else if b.month < a.month then false
  else if a.day < b.day then true
  else if b.day < a.day then false
  else if a.hour < b.hour then true
  else if b.hour < a.hour then false
  else if a.minute < b.minute then true
  else if b.minute < a.minute then false
  else if a.second < b.second then true
  else if b.second < a.second then false
  else decide (a.microsecond < b.microsecond)

/-- Numeric value of a decimal digit character. -/
def digitVal (c : Char) : Nat := c.toNat - 48

/-- Two-digit decimal value. -/
def d2 (a b : Char) : Nat := digitVal a * 10 + digitVal b

/-- Decimal value of a digit list (most significant first). -/
def natOfDigits (cs : List Char) : Nat :=
  cs.foldl (fun n c => n * 10 + digitVal c) 0

/-- Gregorian leap year, as Python's calendar arithmetic. -/
def isLeap (y : Nat) : Bool :=
  y % 4 == 0 && (y % 100 != 0 || y % 400 == 0)

/-- Days in a month, as validated by Python datetime construction. -/
def daysInMonth (y m : Nat) : Nat :=
  if m = 2 then (if isLeap y then 29 else 28)
  else if m = 4 ∨ m = 6 ∨ m = 9 ∨ m = 11 then 30
  else 31

/-- Model of string.replace(pat, rep): replace every occurrence of pat,
scanning left to right.  Fuel-structural so that it evaluates in the
kernel; the fuel is the text length, enough since every step consumes at
least one character. -/
def replaceAux (pat rep : List Char) : Nat → List Char → List Char
  | 0, text => text
  | fuel + 1, text =>
    match text with
    | [] => []
    | c :: rest =>
      if text.take pat.length = pat then
        rep ++ replaceAux pat rep fuel (text.drop pat.length)
      else
        c :: replaceAux pat rep fuel rest

/-- Python str.replace(pat, rep) for a nonempty pattern (the script only
uses patterns Z, @ and .xlsx). -/
def pyReplace (s pat rep : String) : String :=
  if pat = "" then s
  else ⟨replaceAux pat.data rep.data s.data.length s.data⟩

/-- Offset suffix accepted by the model parser: none, or +00:00 (what
the scraper produces by replacing a trailing Z). -/
def tzOk : List Char → Bool
  | [] => true
  | ['+', '0', '0', ':', '0', '0'] => true
  | _ => false

/-- Seconds and fractional part of an ISO time, after HH:MM.  Returns
(second, microsecond). -/
def parseSecondFrac (cs : List Char) : Option (Nat × Nat) :=
  match cs with
  | ':' :: s1 :: s2 :: rest =>
    if s1.isDigit && s2.isDigit && d2 s1 s2 ≤ 59 then
      match rest with
      | '.' :: t =>
        let digs := t.takeWhile Char.isDigit
        if 1 ≤ digs.length && digs.length ≤ 6 && tzOk (t.drop digs.length) then
          some (d2 s1 s2, natOfDigits digs * 10 ^ (6 - digs.length))
        else none
      | _ => if tzOk rest then some (d2 s1 s2, 0) else none
    else none
  | rest => if tzOk rest then some (0, 0) else none

/-- Time-of-day part of an ISO timestamp: HH:MM, optionally followed by
seconds, a fraction and the UTC offset.  Returns
(hour, minute, second, microsecond). -/
def parseTimePart (cs : List Char) : Option (Nat × Nat × Nat × Nat) :=
  match cs with
  | h1 :: h2 :: ':' :: m1 :: m2 :: rest =>
    if h1.isDigit && h2.isDigit && m1.isDigit && m2.isDigit
        && d2 h1 h2 ≤ 23 && d2 m1 m2 ≤ 59 then
      (parseSecondFrac rest).map fun p => (d2 h1 h2, d2 m1 m2, p.1, p.2)
    else none
  | _ => none

/-- Model of Python datetime.fromisoformat for the timestamp shapes the
scraper feeds it: YYYY-MM-DD, optionally followed by T or space and
HH:MM[:SS[.frac]], optionally followed by the +00:00 offset (the scraper
first rewrites a trailing Z to +00:00).  Returns none exactly when
fromisoformat would raise ValueError on such inputs, e.g. on the empty
string, on garbage, or on an out-of-range calendar component. -/
def fromisoformat (s : String) : Option PyDateTime :=
  match s.data with
  | y1 :: y2 :: y3 :: y4 :: '-' :: mo1 :: mo2 :: '-' :: dy1 :: dy2 :: rest =>
    if y1.isDigit && y2.isDigit && y3.isDigit && y4.isDigit
        && mo1.isDigit && mo2.isDigit && dy1.isDigit && dy2.isDigit then
      let y := natOfDigits [y1, y2, y3, y4]
      let mo := d2 mo1 mo2
      let dy := d2 dy1 dy2
      if 1 ≤ y && 1 ≤ mo && mo ≤ 12 && 1 ≤ dy && dy ≤ daysInMonth y mo then
        match rest with
        | [] => some ⟨y, mo, dy, 0, 0, 0, 0⟩
        | c :: t =>
          if c = 'T' || c = ' ' then
            (parseTimePart t).map fun q => ⟨y, mo, dy, q.1, q.2.1, q.2.2.1, q.2.2.2⟩
          else none
      else none
    else none
  | _ => none

/-- Model of datetime.strptime(s, "%Y-%m-%d") for the zero-padded form
used by the configuration dates.  Only the calendar date is kept, as the
loop only ever uses start_date_obj.date() and end_date_obj.date(). -/
def strptimeYMD (s : String) : Option PyDate :=
  match s.data with
  | [y1, y2, y3, y4, '-', mo1, mo2, '-', dy1, dy2] =>
    if y1.isDigit && y2.isDigit && y3.isDigit && y4.isDigit
        && mo1.isDigit && mo2.isDigit && dy1.isDigit && dy2.isDigit then
      let y := natOfDigits [y1, y2, y3, y4]
      let mo := d2 mo1 mo2
      let dy := d2 dy1 dy2
      if 1 ≤ y && 1 ≤ mo && mo ≤ 12 && 1 ≤ dy && dy ≤ daysInMonth y mo then
        some ⟨y, mo, dy⟩
      else none
    else none
  | _ => none

/-- zero-padded two-digit rendering (strftime %m, %d). -/
def pad2 (n : Nat) : String :=
  ⟨[Char.ofNat (48 + n / 10 % 10), Char.ofNat (48 + n % 10)]⟩

/-- zero-padded four-digit rendering (strftime %Y for years below 10000). -/
def pad4 (n : Nat) : String :=
  ⟨[Char.ofNat (48 + n / 1000 % 10), Char.ofNat (48 + n / 100 % 10),
    Char.ofNat (48 + n / 10 % 10), Char.ofNat (48 + n % 10)]⟩

/-- strftime('%Y-%m-%d') of a datetime, as used for the output filename. -/
def PyDateTime.strftimeYMD (d : PyDateTime) : String :=
  pad4 d.year ++ "-" ++ pad2 d.month ++ "-" ++ pad2 d.day

/-- One scraped record, the dict built by TwitterExtractor._process_tweet.
All field extractors return a string (empty when the element or
attribute is missing), except the list/flag/count payload fields, which
the loop never inspects. -/
structure Row where
  text : String := ""
  author_name : String := ""
  author_handle : String := ""
  date : String := ""
  lang : String := ""
  url : String := ""
  mentioned_urls : List String := []
  is_retweet : Bool := false
  media_type : String := "No media"
  images_urls : Option (List String) := none
  num_reply : Nat := 0
  num_retweet : Nat := 0
  num_like : Nat := 0
deriving DecidableEq, Repr

/-- What the page yields on one iteration of the while loop of
fetch_tweets: no tweet found by _get_first_tweet, an exception raised
while processing the first tweet (caught by the except branch), or a row
successfully returned by _process_tweet. -/
inductive PageEvent where
  | noTweet : PageEvent
  | procError : PageEvent
  | tweet : Row → PageEvent
deriving DecidableEq, Repr

/-- Log lines emitted by the loop body (abstracted to kind and payload). -/
inductive LogEntry where
  | noTweetWarn : LogEntry
  | dateValueError : String → LogEntry
  | stopEarly : LogEntry
  | skipLate : LogEntry
  | processedInfo : Nat → LogEntry
  | processError : LogEntry
deriving DecidableEq, Repr

/-- The mutable state of one fetch_tweets run.  processedRows is ghost
instrumentation recording every row returned by _process_tweet (the rows
counted by processed_count); iterations counts loop-body executions;
deleteCalls counts calls of _delete_first_tweet.  snapshots records the
contents of each intermediate JSON file in write order. -/
structure FetchState where
  processedCount : Nat := 0
  author_handles : List String := []
  min_date : Option PyDateTime := none
  max_date : Option PyDateTime := none
  tweets_data : List Row := []
  snapshots : List (List Row) := []
  logs : List LogEntry := []
  deleteCalls : Nat := 0
  iterations : Nat := 0
  processedRows : List Row := []
deriving DecidableEq, Repr

/-- Python set.add on the model of a set as an insertion-ordered
duplicate-free list. -/
def setInsert (s : List String) (x : String) : List String :=
  if x ∈ s then s else s ++ [x]

/-- The min_date update of lines 148-149: replace when date < min_date
or min_date is None. -/
def minStep (acc : Option PyDateTime) (d : PyDateTime) : Option PyDateTime :=
  match acc with
  | none => some d
  | some m => if PyDateTime.lt d m then some d else some m

/-- The max_date update of lines 150-151: replace when date > max_date
or max_date is None. -/
def maxStep (acc : Option PyDateTime) (d : PyDateTime) : Option PyDateTime :=
  match acc with
  | none => some d
  | some m => if PyDateTime.lt m d then some d else some m

/-- Result of one loop-body execution: continue the while loop, or break
out of it. -/
inductive StepResult where
  | cont : FetchState → StepResult
  | brk : FetchState → StepResult
deriving DecidableEq, Repr

/-- The state carried by either step result. -/
def StepResult.state : StepResult → FetchState
  | .cont s => s
  | .brk s => s

/-- Whether the step broke out of the loop. -/
def StepResult.isBrk : StepResult → Bool
  | .cont _ => false
  | .brk _ => true

/-- Lines 169-185: the tail of a loop iteration that keeps the row:
collect the author handle (with every @ removed) when nonempty, append
the row to tweets_data, log, delete the first tweet from the page, and
write an intermediate snapshot when processed_count is a multiple of
ten. -/
def appendRow (s : FetchState) (row : Row) (pc : Nat) (pr : List Row)
    (mn mx : Option PyDateTime) : FetchState where
  processedCount := pc
  author_handles :=
    if row.author_handle ≠ "" then
      setInsert s.author_handles (pyReplace row.author_handle "@" "")
    else s.author_handles
  min_date := mn
  max_date := mx
  tweets_data := s.tweets_data ++ [row]
  snapshots :=
    if pc % 10 = 0 then s.snapshots ++ [s.tweets_data ++ [row]]
    else s.snapshots
  logs := s.logs ++ [LogEntry.processedInfo pc]
  deleteCalls := s.deleteCalls + 1
  iterations := s.iterations + 1
  processedRows := pr

/-- One execution of the while-loop body of fetch_tweets (lines 131-191)
on the given page event. -/
def fetchStep (sd ed : PyDate) (s : FetchState) (e : PageEvent) : StepResult :=
  match e with
  | .noTweet =>
    -- lines 134-137: warn, sleep 2s, continue
    .cont { s with iterations := s.iterations + 1,
                   logs := s.logs ++ [LogEntry.noTweetWarn] }
  | .procError =>
    -- lines 187-191: log the error, delete the first tweet, continue
    .cont { s with iterations := s.iterations + 1,
                   logs := s.logs ++ [LogEntry.processError],
                   deleteCalls := s.deleteCalls + 1 }
  | .tweet row =>
    -- lines 139-140
    let pc := s.processedCount + 1
    let pr := s.processedRows ++ [row]
    if row.date ≠ "" then
      match fromisoformat (pyReplace row.date "Z" "+00:00") with
      | none =>
        -- lines 153-157: ValueError: log, delete, continue
        .cont { s with processedCount := pc,
                       processedRows := pr,
                       iterations := s.iterations + 1,
                       logs := s.logs ++ [LogEntry.dateValueError row.date],
                       deleteCalls := s.deleteCalls + 1 }
      | some date =>
        -- lines 147-151: min/max update happens before the range check
        let mn := minStep s.min_date date
        let mx := maxStep s.max_date date
        if PyDate.lt date.date sd then
          -- lines 161-163: break without deleting or appending
          .brk { s with processedCount := pc,
                        processedRows := pr,
                        min_date := mn,
                        max_date := mx,
                        iterations := s.iterations + 1,
                        logs := s.logs ++ [LogEntry.stopEarly] }
        else if PyDate.lt ed date.date then
          -- lines 164-167: skip: delete, continue
          .cont { s with processedCount := pc,
                         processedRows := pr,
                         min_date := mn,
                         max_date := mx,
                         iterations := s.iterations + 1,
                         logs := s.logs ++ [LogEntry.skipLate],
                         deleteCalls := s.deleteCalls + 1 }
        else
          .cont (appendRow { s with min_date := mn, max_date := mx } row pc pr mn mx)
    else
      -- empty date: the whole date block is skipped, fall through to 169
      .cont (appendRow s row pc pr s.min_date s.max_date)

/-- Iteration cap of line 129. -/
def maxTweets : Nat := 100

/-- The while loop of lines 131-191, driven by a finite event trace.
The guard processed_count < max_tweets is checked before each body
execution; a break ends the loop at once. -/
def fetchLoop (sd ed : PyDate) : List PageEvent → FetchState → FetchState
  | [], s => s
  | e :: es, s =>
    if s.processedCount < maxTweets then
      match fetchStep sd ed s e with
      | .cont s' => fetchLoop sd ed es s'
      | .brk s' => s'
    else s

/-- Python user_url.split('/')[-1]: the substring after the last slash
(the whole string when there is no slash). -/
def usernameOf (url : String) : String :=
  ⟨url.data.foldl (fun acc c => if c = '/' then [] else acc ++ [c]) []⟩

/-- Lines 194-199: the filename stem is the single collected author
handle when exactly one was collected, otherwise the username from the
target URL. -/
def nameStem (handles : List String) (username : String) : String :=
  match handles with
  | [h] => h
  | _ => username

/-- Lines 202-209: the date-range part of the filename, min_max when
both tracked dates exist, otherwise the current date. -/
def mkDateRange (mn mx : Option PyDateTime) (today : String) : String :=
  match mn, mx with
  | some a, some b => a.strftimeYMD ++ "_" ++ b.strftimeYMD
  | _, _ => today

/-- A file written during the run, in write order.  Snapshot files are
named by username and a wall-clock timestamp; the timestamp is not
modelled, only the username and the records written. -/
inductive FileWrite where
  | snapshot : String → List Row → FileWrite
  | jsonFile : String → List Row → FileWrite
  | excelFile : String → List Row → FileWrite
  | csvFile : String → List Row → FileWrite
deriving DecidableEq, Repr

/-- Keep-first deduplication by the url column, the semantics of
pandas drop_duplicates(subset=["url"]) at line 555. -/
def dropDupUrl : List Row → List String → List Row
  | [], _ => []
  | r :: rs, seen =>
    if r.url ∈ seen then dropDupUrl rs seen
    else r :: dropDupUrl rs (seen ++ [r.url])

/-- Lines 547-552: the date-column rewrite applied before
drop_duplicates: every string date is parsed with fromisoformat after
the Z rewrite and replaced by the timezone-free datetime (rendered here
by strftime of the full timestamp is unnecessary: only the parsedness
and the url column matter downstream, so the munged row keeps the
yyyy-mm-dd rendering of the parsed value).  Returns none exactly when
the apply raises, i.e. when some date string (including the empty
string) fails to parse. -/
def mungeAll (rows : List Row) : Option (List Row) :=
  rows.mapM fun r =>
    (fromisoformat (pyReplace r.date "Z" "+00:00")).map
      fun d => { r with date := d.strftimeYMD }

/-- Static method _save_to_excel (lines 534-572), with the success of
the two external write calls (to_excel, to_csv) given as oracles.
Returns the files it writes, in order.

The failure cases mirror the source: when the frame is empty,
read_json yields no url column and drop_duplicates raises, so the CSV
fallback writes the raw (empty) frame; when some date string fails the
fromisoformat rewrite of lines 549-552 (e.g. a record kept with an
empty date), the apply raises before deduplication, so the CSV fallback
writes the raw frame without deduplication; when to_excel itself
raises, the deduplicated frame is written to CSV; a failing CSV write is
only logged. -/
def save_to_excel (jsonRows : List Row) (output : String)
    (excelWriteOk csvWriteOk : Bool) : List FileWrite :=
  let csvPath := pyReplace output ".xlsx" ".csv"
  if jsonRows.isEmpty then
    if csvWriteOk then [FileWrite.csvFile csvPath []] else []
  else
    match mungeAll jsonRows with
    | none =>
      if csvWriteOk then [FileWrite.csvFile csvPath jsonRows] else []
    | some munged =>
      let deduped := dropDupUrl munged []
      if excelWriteOk then [FileWrite.excelFile output deduped]
      else if csvWriteOk then [FileWrite.csvFile csvPath deduped]
      else []

/-- The environment of one run: the values read from the process
environment in __init__ (with the defaults of lines 48-51), plus the
oracles for the wall clock and the two fallible external writes. -/
structure RunConfig where
  auth_token : Option String := none
  start_date : String := "2023-01-01"
  end_date : String := "2023-01-02"
  twitter_url : String := "https://x.com/elonmusk"
  today : String := "2026-10-12"
  excelWriteOk : Bool := true
  csvWriteOk : Bool := true
deriving Repr

/-- The result of one completed fetch_tweets call: the final loop state,
the computed filename stem, and every file written, in write order. -/
structure FetchOutcome where
  state : FetchState
  filename : String
  writes : List FileWrite
deriving Repr

/-- Lines 193-229 composed with the loop: one fetch_tweets run after the
start and end dates parsed.  Intermediate snapshots are written during
the loop, then the line-delimited JSON file with tweets_data as is
(lines 214-218, no deduplication), then the Excel/CSV step. -/
def fetchRun (cfg : RunConfig) (sd ed : PyDate) (trace : List PageEvent) :
    FetchOutcome :=
  let username := usernameOf cfg.twitter_url
  let s := fetchLoop sd ed trace {}
  let stem := nameStem s.author_handles username
  let dr := mkDateRange s.min_date s.max_date cfg.today
  let fname := "data/" ++ stem ++ "@" ++ dr
  { state := s
    filename := fname
    writes :=
      s.snapshots.map (fun rows => FileWrite.snapshot username rows)
        ++ [FileWrite.jsonFile (fname ++ ".json") s.tweets_data]
        ++ save_to_excel s.tweets_data (fname ++ ".xlsx")
             cfg.excelWriteOk cfg.csvWriteOk }

/-- TwitterExtractor.fetch_tweets (line 87): parse the configured dates
with strptime (lines 122-123, raising on malformed configuration), then
run the loop and the serialization. -/
def fetch_tweets (cfg : RunConfig) (trace : List PageEvent) :
    Except String FetchOutcome :=
  match strptimeYMD cfg.start_date, strptimeYMD cfg.end_date with
  | some sd, some ed => .ok (fetchRun cfg sd ed trace)
  | _, _ => .error "time data does not match format %Y-%m-%d"

/-- The error message of line 82. -/
def tokenMissingMsg : String := "访问令牌缺失。请正确配置它。"

/-- TwitterExtractor.set_token (lines 72-85): raise when the token is
absent, empty, or the placeholder; otherwise install the cookie. -/
def set_token (auth_token : Option String) : Except String Unit :=
  match auth_token with
  | none => .error tokenMissingMsg
  | some t =>
    if t = "" || t = "YOUR_TWITTER_AUTH_TOKEN_HERE" then .error tokenMissingMsg
    else .ok ()

/-- The main entry (lines 575-584): __init__ installs the token (raising
before any scraping on a missing credential), then fetch_tweets runs. -/
def runMain (cfg : RunConfig) (trace : List PageEvent) :
    Except String FetchOutcome :=
  match set_token cfg.auth_token with
  | .error e => .error e
  | .ok _ => fetch_tweets cfg trace

/-- The files written by a possibly-failed run: a raised initialization
error writes nothing. -/
def writesOf : Except String FetchOutcome → List FileWrite
  | .error _ => []
  | .ok o => o.writes

/-- Selector for line-delimited JSON output files. -/
def jsonSel : FileWrite → Option (List Row)
  | FileWrite.jsonFile _ rows => some rows
  | _ => none

/-- Selector for spreadsheet output files. -/
def excelSel : FileWrite → Option (List Row)
  | FileWrite.excelFile _ rows => some rows
  | _ => none

/-- Selector for CSV fallback output files. -/
def csvSel : FileWrite → Option (List Row)
  | FileWrite.csvFile _ rows => some rows
  | _ => none

/-- The records of every line-delimited JSON output file among the
writes. -/
def jsonRecordsOf (ws : List FileWrite) : List Row :=
  (ws.filterMap jsonSel).flatten

/-- The records of every spreadsheet output file among the writes. -/
def excelRecordsOf (ws : List FileWrite) : List Row :=
  (ws.filterMap excelSel).flatten

/-- The records of every CSV fallback file among the writes. -/
def csvRecordsOf (ws : List FileWrite) : List Row :=
  (ws.filterMap csvSel).flatten

/-- Spec-side description of the handle collection of lines 169-173:
fold over the persisted rows, inserting each nonempty handle with its @
signs removed. -/
def collectHandles (rows : List Row) : List String :=
  rows.foldl
    (fun acc r =>
      if r.author_handle ≠ "" then setInsert acc (pyReplace r.author_handle "@" "")
      else acc) []

/-- The dates that parse, in order, among the date fields of the given
rows: the dates over which min_date and max_date range. -/
def parsedDatesOf (rows : List Row) : List PyDateTime :=
  rows.filterMap fun r =>
    if r.date ≠ "" then fromisoformat (pyReplace r.date "Z" "+00:00") else none

/-- Spec-side minimum over a date list, folding the min_date update. -/
def listMinD (xs : List PyDateTime) : Option PyDateTime :=
  xs.foldl minStep none

/-- Spec-side maximum over a date list, folding the max_date update. -/
def listMaxD (xs : List PyDateTime) : Option PyDateTime :=
  xs.foldl maxStep none

/-! ## Helper lemmas -/

/-- Invariant preservation engine for the while loop: a predicate
preserved by every body execution started below the cap is preserved by
the whole loop. -/
theorem fetchLoop_inv (sd ed : PyDate) (P : FetchState → Prop)
    (hstep : ∀ s e, P s → s.processedCount < maxTweets →
      P (fetchStep sd ed s e).state) :
    ∀ tr s, P s → P (fetchLoop sd ed tr s) := by
  intro tr
  induction tr with
  | nil => intro s h; exact h
  | cons e es ih =>
    intro s h
    simp only [fetchLoop]
    by_cases hc : s.processedCount < maxTweets
    · simp only [if_pos hc]
      have hps := hstep s e h hc
      cases hfs : fetchStep sd ed s e with
      | cont s' => rw [hfs] at hps; exact ih s' hps
      | brk s' => rw [hfs] at hps; exact hps
    · simp only [if_neg hc]; exact h

/-- Shape of a body execution on a record with an empty date field. -/
theorem fetchStep_tweet_empty (sd ed : PyDate) (s : FetchState) (row : Row)
    (hd : row.date = "") :
    fetchStep sd ed s (PageEvent.tweet row) =
      StepResult.cont (appendRow s row (s.processedCount + 1)
        (s.processedRows ++ [row]) s.min_date s.max_date) := by
  simp [fetchStep, hd]

/-- Shape of a body execution on a record whose date fails to parse. -/
theorem fetchStep_tweet_malformed (sd ed : PyDate) (s : FetchState)
    (row : Row) (hd : row.date ≠ "")
    (hp : fromisoformat (pyReplace row.date "Z" "+00:00") = none) :
    fetchStep sd ed s (PageEvent.tweet row) =
      StepResult.cont { s with
        processedCount := s.processedCount + 1,
        processedRows := s.processedRows ++ [row],
        iterations := s.iterations + 1,
        logs := s.logs ++ [LogEntry.dateValueError row.date],
        deleteCalls := s.deleteCalls + 1 } := by
  simp [fetchStep, hd, hp]

/-- Shape of a body execution on a record dated before the start date. -/
theorem fetchStep_tweet_early (sd ed : PyDate) (s : FetchState) (row : Row)
    (d : PyDateTime) (hd : row.date ≠ "")
    (hp : fromisoformat (pyReplace row.date "Z" "+00:00") = some d)
    (h1 : PyDate.lt d.date sd = true) :
    fetchStep sd ed s (PageEvent.tweet row) =
      StepResult.brk { s with
        processedCount := s.processedCount + 1,
        processedRows := s.processedRows ++ [row],
        min_date := minStep s.min_date d,
        max_date := maxStep s.max_date d,
        iterations := s.iterations + 1,
        logs := s.logs ++ [LogEntry.stopEarly] } := by
  simp [fetchStep, hd, hp, h1]

/-- Shape of a body execution on a record dated after the end date. -/
theorem fetchStep_tweet_late (sd ed : PyDate) (s : FetchState) (row : Row)
    (d : PyDateTime) (hd : row.date ≠ "")
    (hp : fromisoformat (pyReplace row.date "Z" "+00:00") = some d)
    (h1 : PyDate.lt d.date sd = false) (h2 : PyDate.lt ed d.date = true) :
    fetchStep sd ed s (PageEvent.tweet row) =
      StepResult.cont { s with
        processedCount := s.processedCount + 1,
        processedRows := s.processedRows ++ [row],
        min_date := minStep s.min_date d,
        max_date := maxStep s.max_date d,
        iterations := s.iterations + 1,
        logs := s.logs ++ [LogEntry.skipLate],
        deleteCalls := s.deleteCalls + 1 } := by
  simp [fetchStep, hd, hp, h1, h2]

/-- Shape of a body execution on a record dated inside the range. -/
theorem fetchStep_tweet_inrange (sd ed : PyDate) (s : FetchState) (row : Row)
    (d : PyDateTime) (hd : row.date ≠ "")
    (hp : fromisoformat (pyReplace row.date "Z" "+00:00") = some d)
    (h1 : PyDate.lt d.date sd = false) (h2 : PyDate.lt ed d.date = false) :
    fetchStep sd ed s (PageEvent.tweet row) =
      StepResult.cont (appendRow
        { s with min_date := minStep s.min_date d,
                 max_date := maxStep s.max_date d }
        row (s.processedCount + 1) (s.processedRows ++ [row])
        (minStep s.min_date d) (maxStep s.max_date d)) := by
  simp [fetchStep, hd, hp, h1, h2]

/-- One body execution raises processed_count by at most one. -/
theorem step_count_le (sd ed : PyDate) (s : FetchState) (e : PageEvent) :
    (fetchStep sd ed s e).state.processedCount ≤ s.processedCount + 1 := by
  cases e with
  | noTweet => simp [fetchStep, StepResult.state]
  | procError => simp [fetchStep, StepResult.state]
  | tweet row =>
    by_cases hd : row.date = ""
    · simp [fetchStep, hd, appendRow, StepResult.state]
    · cases hp : fromisoformat (pyReplace row.date "Z" "+00:00") with
      | none => simp [fetchStep, hd, hp, StepResult.state]
      | some d =>
        by_cases h1 : PyDate.lt d.date sd = true
        · simp [fetchStep, hd, hp, h1, StepResult.state]
        · by_cases h2 : PyDate.lt ed d.date = true
          · simp [fetchStep, hd, hp, h1, h2, StepResult.state]
          · simp [fetchStep, hd, hp, h1, h2, appendRow, StepResult.state]

/-- No row of the deduplicated output carries a url already seen. -/
theorem dropDupUrl_not_mem_seen (rs : List Row) :
    ∀ seen, ∀ r ∈ dropDupUrl rs seen, r.url ∉ seen := by
  induction rs with
  | nil => intro seen r hr; simp [dropDupUrl] at hr
  | cons a rs ih =>
    intro seen r hr
    simp only [dropDupUrl] at hr
    by_cases h : a.url ∈ seen
    · rw [if_pos h] at hr
      exact ih seen r hr
    · rw [if_neg h] at hr
      rcases List.mem_cons.mp hr with rfl | hr'
      · exact h
      · intro hmem
        exact ih (seen ++ [a.url]) r hr' (List.mem_append_left _ hmem)

/-- Keep-first deduplication by url yields pairwise distinct urls. -/
theorem dropDupUrl_pairwise (rs : List Row) :
    ∀ seen, List.Pairwise (fun a b => a.url ≠ b.url) (dropDupUrl rs seen) := by
  induction rs with
  | nil => intro seen; simp [dropDupUrl]
  | cons a rs ih =>
    intro seen
    simp only [dropDupUrl]
    by_cases h : a.url ∈ seen
    · rw [if_pos h]; exact ih seen
    · rw [if_neg h]
      refine List.Pairwise.cons ?_ (ih _)
      intro b hb heq
      have hnm := dropDupUrl_not_mem_seen rs (seen ++ [a.url]) b hb
      exact hnm (heq ▸ List.mem_append_right _ (List.mem_singleton_self _))

/-- Folding the min update from a some accumulator never yields none. -/
theorem foldl_minStep_some (xs : List PyDateTime) :
    ∀ m, ∃ v, xs.foldl minStep (some m) = some v := by
  induction xs with
  | nil => intro m; exact ⟨m, rfl⟩
  | cons x xs ih =>
    intro m
    simp only [List.foldl_cons, minStep]
    by_cases h : PyDateTime.lt x m = true
    · rw [if_pos h]; exact ih x
    · rw [if_neg h]; exact ih m

/-- Folding the max update from a some accumulator never yields none. -/
theorem foldl_maxStep_some (xs : List PyDateTime) :
    ∀ m, ∃ v, xs.foldl maxStep (some m) = some v := by
  induction xs with
  | nil => intro m; exact ⟨m, rfl⟩
  | cons x xs ih =>
    intro m
    simp only [List.foldl_cons, maxStep]
    by_cases h : PyDateTime.lt m x = true
    · rw [if_pos h]; exact ih x
    · rw [if_neg h]; exact ih m

/-- The tracked minimum exists exactly when some date was parsed. -/
theorem listMinD_isSome_iff (xs : List PyDateTime) :
    (listMinD xs).isSome ↔ xs ≠ [] := by
  cases xs with
  | nil => simp [listMinD]
  | cons x xs =>
    simp only [listMinD, List.foldl_cons, minStep]
    obtain ⟨v, hv⟩ := foldl_minStep_some xs x
    simp [hv]

/-- The tracked maximum exists exactly when some date was parsed. -/
theorem listMaxD_isSome_iff (xs : List PyDateTime) :
    (listMaxD xs).isSome ↔ xs ≠ [] := by
  cases xs with
  | nil => simp [listMaxD]
  | cons x xs =>
    simp only [listMaxD, List.foldl_cons, maxStep]
    obtain ⟨v, hv⟩ := foldl_maxStep_some xs x
    simp [hv]

/-- Appending one date folds one more min update. -/
theorem listMinD_append_one (xs : List PyDateTime) (d : PyDateTime) :
    listMinD (xs ++ [d]) = minStep (listMinD xs) d := by
  simp [listMinD, List.foldl_append]

/-- Appending one date folds one more max update. -/
theorem listMaxD_append_one (xs : List PyDateTime) (d : PyDateTime) :
    listMaxD (xs ++ [d]) = maxStep (listMaxD xs) d := by
  simp [listMaxD, List.foldl_append]

/-- Appending one row folds one more handle-collection step. -/
theorem collectHandles_append_one (rows : List Row) (r : Row) :
    collectHandles (rows ++ [r]) =
      if r.author_handle ≠ "" then
        setInsert (collectHandles rows) (pyReplace r.author_handle "@" "")
      else collectHandles rows := by
  simp [collectHandles, List.foldl_append]

/-- The parsed dates of one more row. -/
theorem parsedDatesOf_append_one (rows : List Row) (r : Row) :
    parsedDatesOf (rows ++ [r]) =
      parsedDatesOf rows ++
        (if r.date ≠ "" then fromisoformat (pyReplace r.date "Z" "+00:00")
         else none).toList := by
  simp [parsedDatesOf, List.filterMap_append, List.filterMap_cons]
  split <;> simp_all

/-- The Excel/CSV step never writes a JSON file. -/
theorem save_to_excel_no_json (rows : List Row) (out : String)
    (eOk cOk : Bool) :
    (save_to_excel rows out eOk cOk).filterMap jsonSel = [] := by
  simp only [save_to_excel]
  by_cases he : rows.isEmpty
  · rw [if_pos he]
    cases cOk <;> simp [jsonSel]
  · rw [if_neg he]
    cases hm : mungeAll rows with
    | none => cases cOk <;> simp [jsonSel]
    | some m => cases eOk <;> cases cOk <;> simp [jsonSel]

/-- The JSON records of a run are exactly the accumulated tweets_data,
written without deduplication, whatever the Excel and CSV writes do. -/
theorem jsonRecords_run (cfg : RunConfig) (sd ed : PyDate)
    (trace : List PageEvent) :
    jsonRecordsOf (fetchRun cfg sd ed trace).writes =
      (fetchLoop sd ed trace {}).tweets_data := by
  simp only [fetchRun, jsonRecordsOf, List.filterMap_append,
    save_to_excel_no_json, List.filterMap_map]
  have h1 : ((fetchLoop sd ed trace {}).snapshots.filterMap
      (jsonSel ∘ fun rows => FileWrite.snapshot (usernameOf cfg.twitter_url) rows)) = [] := by
    rw [List.filterMap_eq_nil_iff]
    intro a _
    rfl
  rw [h1]
  simp [jsonSel]

/-- The spreadsheet records of a run all come from the Excel/CSV step. -/
theorem excelRecords_run (cfg : RunConfig) (sd ed : PyDate)
    (trace : List PageEvent) :
    excelRecordsOf (fetchRun cfg sd ed trace).writes =
      excelRecordsOf
        (save_to_excel (fetchLoop sd ed trace {}).tweets_data
          ((fetchRun cfg sd ed trace).filename ++ ".xlsx")
          cfg.excelWriteOk cfg.csvWriteOk) := by
  simp only [fetchRun, excelRecordsOf, List.filterMap_append, List.filterMap_map]
  have h1 : ((fetchLoop sd ed trace {}).snapshots.filterMap
      (excelSel ∘ fun rows => FileWrite.snapshot (usernameOf cfg.twitter_url) rows)) = [] := by
    rw [List.filterMap_eq_nil_iff]
    intro a _
    rfl
  rw [h1]
  simp [excelSel]

/-! ## Claim theorems -/

/-- C5: missing credential is fatal at startup.  When the auth-token
environment variable is absent, empty, or the placeholder value, the
session initializer raises (set_token, line 81-82) before any scraping,
and the run writes no output file. -/
theorem c5_missing_credential_fatal (cfg : RunConfig) (trace : List PageEvent)
    (h : cfg.auth_token = none ∨ cfg.auth_token = some "" ∨
      cfg.auth_token = some "YOUR_TWITTER_AUTH_TOKEN_HERE") :
    runMain cfg trace = Except.error tokenMissingMsg ∧
    writesOf (runMain cfg trace) = [] := by
  have hs : set_token cfg.auth_token = Except.error tokenMissingMsg := by
    rcases h with h | h | h <;> rw [h] <;> rfl
  constructor
  · simp [runMain, hs]
  · simp [runMain, hs, writesOf]

/-- Witness for C5 at the default configuration, whose token is absent. -/
theorem c5_missing_credential_fatal_witness :
    (({} : RunConfig).auth_token = none ∨
      ({} : RunConfig).auth_token = some "" ∨
      ({} : RunConfig).auth_token = some "YOUR_TWITTER_AUTH_TOKEN_HERE") ∧
    (runMain {} [] = Except.error tokenMissingMsg ∧
      writesOf (runMain {} []) = []) :=
  ⟨Or.inl rfl, c5_missing_credential_fatal {} [] (Or.inl rfl)⟩

/-- C3 counterexample: the cap of 100 does not bound loop-body
executions.  On a run in which the page yields no tweet for 101
consecutive iterations, the body executes 101 times, because the
no-tweet branch (lines 134-137) and the exception branch (lines
187-191) do not increment processed_count; only iterations that
process a tweet count toward the cap. -/
theorem c3_counterexample :
    100 < (fetchLoop ⟨2023, 1, 1⟩ ⟨2023, 1, 2⟩
      (List.replicate 101 PageEvent.noTweet) {}).iterations := by
  decide

/-- C3 amended: the cap bounds the number of processed tweets, not the
number of body executions: starting at or below the cap, the processed
count never exceeds 100, and the loop refuses to run a body once the
count reaches 100. -/
theorem c3_amended_cap_bounds_processed (sd ed : PyDate)
    (tr : List PageEvent) (s : FetchState)
    (h : s.processedCount ≤ maxTweets) :
    (fetchLoop sd ed tr s).processedCount ≤ maxTweets := by
  refine fetchLoop_inv sd ed (fun st => st.processedCount ≤ maxTweets) ?_ tr s h
  intro st e _ hguard
  have hle := step_count_le sd ed st e
  simp only [maxTweets] at hguard ⊢
  omega

/-- Witness for the amended C3 at a concrete one-event trace. -/
theorem c3_amended_cap_witness :
    ({} : FetchState).processedCount ≤ maxTweets ∧
    (fetchLoop ⟨2023, 1, 1⟩ ⟨2023, 1, 2⟩
      [PageEvent.noTweet] {}).processedCount ≤ maxTweets :=
  ⟨by decide,
    c3_amended_cap_bounds_processed ⟨2023, 1, 1⟩ ⟨2023, 1, 2⟩
      [PageEvent.noTweet] {} (by decide)⟩

/-- C2: date-range filtering (lines 142-176).  For a processed record
whose date parses, the record is appended exactly when its calendar
date lies in [start_date, end_date]; a date strictly after end_date is
skipped with a delete and the loop continues; a date strictly before
start_date breaks the loop without appending. -/
theorem c2_date_range_filter (sd ed : PyDate) (s : FetchState) (row : Row)
    (d : PyDateTime) (hd : row.date ≠ "")
    (hp : fromisoformat (pyReplace row.date "Z" "+00:00") = some d) :
    ((fetchStep sd ed s (PageEvent.tweet row)).state.tweets_data =
      if PyDate.lt d.date sd || PyDate.lt ed d.date then s.tweets_data
      else s.tweets_data ++ [row]) ∧
    ((fetchStep sd ed s (PageEvent.tweet row)).isBrk = PyDate.lt d.date sd) ∧
    (PyDate.lt d.date sd = false → PyDate.lt ed d.date = true →
      (fetchStep sd ed s (PageEvent.tweet row)).state.deleteCalls =
        s.deleteCalls + 1) := by
  by_cases h1 : PyDate.lt d.date sd = true
  · simp [fetchStep, hd, hp, h1, StepResult.state, StepResult.isBrk]
  · by_cases h2 : PyDate.lt ed d.date = true
    · simp [fetchStep, hd, hp, h1, h2, StepResult.state, StepResult.isBrk]
    · simp [fetchStep, hd, hp, h1, h2, appendRow, StepResult.state,
        StepResult.isBrk]

/-- Record used to witness C2: dated after the configured end date. -/
def c2row : Row :=
  { text := "late", author_handle := "@alice",
    date := "2023-01-07T08:30:00.000Z",
    url := "https://x.com/alice/status/7" }

/-- Parsed datetime of the C2 witness record. -/
def c2dt : PyDateTime := ⟨2023, 1, 7, 8, 30, 0, 0⟩

/-- Witness for C2: a record dated 2023-01-07 against the range
2023-01-01..2023-01-05 is not appended. -/
theorem c2_date_range_filter_witness :
    (c2row.date ≠ "" ∧
      fromisoformat (pyReplace c2row.date "Z" "+00:00") = some c2dt) ∧
    (fetchStep ⟨2023, 1, 1⟩ ⟨2023, 1, 5⟩ {}
        (PageEvent.tweet c2row)).state.tweets_data =
      if PyDate.lt c2dt.date ⟨2023, 1, 1⟩ || PyDate.lt ⟨2023, 1, 5⟩ c2dt.date
      then ({} : FetchState).tweets_data
      else ({} : FetchState).tweets_data ++ [c2row] :=
  ⟨⟨by decide, by decide⟩,
    (c2_date_range_filter ⟨2023, 1, 1⟩ ⟨2023, 1, 5⟩ {} c2row c2dt
      (by decide) (by decide)).1⟩

/-- C6: a nonempty date that fails ISO parsing is logged and skipped
per-record (lines 153-157): the record is not appended, a warning is
logged, the element is deleted from the page, and the loop continues. -/
theorem c6_malformed_date_logged_skipped (sd ed : PyDate) (s : FetchState)
    (row : Row) (hd : row.date ≠ "")
    (hp : fromisoformat (pyReplace row.date "Z" "+00:00") = none) :
    ((fetchStep sd ed s (PageEvent.tweet row)).isBrk = false) ∧
    ((fetchStep sd ed s (PageEvent.tweet row)).state.tweets_data =
      s.tweets_data) ∧
    ((fetchStep sd ed s (PageEvent.tweet row)).state.logs =
      s.logs ++ [LogEntry.dateValueError row.date]) ∧
    ((fetchStep sd ed s (PageEvent.tweet row)).state.deleteCalls =
      s.deleteCalls + 1) := by
  simp [fetchStep, hd, hp, StepResult.state, StepResult.isBrk]

/-- Record used to witness C6: a date string that is not ISO 8601. -/
def c6row : Row :=
  { text := "bad", author_handle := "@alice", date := "not-a-date",
    url := "https://x.com/alice/status/9" }

/-- Witness for C6 at a concrete malformed record. -/
theorem c6_malformed_date_witness :
    (c6row.date ≠ "" ∧
      fromisoformat (pyReplace c6row.date "Z" "+00:00") = none) ∧
    ((fetchStep ⟨2023, 1, 1⟩ ⟨2023, 1, 2⟩ {}
        (PageEvent.tweet c6row)).isBrk = false ∧
      (fetchStep ⟨2023, 1, 1⟩ ⟨2023, 1, 2⟩ {}
        (PageEvent.tweet c6row)).state.tweets_data =
        ({} : FetchState).tweets_data) :=
  ⟨⟨by decide, by decide⟩,
    ⟨(c6_malformed_date_logged_skipped ⟨2023, 1, 1⟩ ⟨2023, 1, 2⟩ {} c6row
        (by decide) (by decide)).1,
      (c6_malformed_date_logged_skipped ⟨2023, 1, 1⟩ ⟨2023, 1, 2⟩ {} c6row
        (by decide) (by decide)).2.1⟩⟩

/-- C9: a record with an empty or missing date field bypasses the date
filter entirely: it is appended (and the JSON output of a run persists
exactly the accumulated tweets_data), and the tracked min/max dates are
untouched, whatever the configured range is. -/
theorem c9_empty_date_bypasses_filter (sd ed : PyDate) (s : FetchState)
    (row : Row) (hd : row.date = "") :
    ((fetchStep sd ed s (PageEvent.tweet row)).state.tweets_data =
      s.tweets_data ++ [row]) ∧
    ((fetchStep sd ed s (PageEvent.tweet row)).state.min_date = s.min_date) ∧
    ((fetchStep sd ed s (PageEvent.tweet row)).state.max_date = s.max_date) ∧
    ((fetchStep sd ed s (PageEvent.tweet row)).isBrk = false) ∧
    (∀ cfg trace, jsonRecordsOf (fetchRun cfg sd ed trace).writes =
      (fetchLoop sd ed trace {}).tweets_data) := by
  refine ⟨?_, ?_, ?_, ?_, fun cfg trace => jsonRecords_run cfg sd ed trace⟩ <;>
    simp [fetchStep, hd, appendRow, StepResult.state, StepResult.isBrk]

/-- Record used to witness C9: no date, out-of-range run configuration. -/
def c9row : Row :=
  { text := "undated", author_handle := "@bob", date := "",
    url := "https://x.com/bob/status/3" }

/-- Witness for C9 at a concrete undated record. -/
theorem c9_empty_date_witness :
    c9row.date = "" ∧
    ((fetchStep ⟨2023, 1, 1⟩ ⟨2023, 1, 2⟩ {}
        (PageEvent.tweet c9row)).state.tweets_data =
      ({} : FetchState).tweets_data ++ [c9row]) :=
  ⟨rfl,
    (c9_empty_date_bypasses_filter ⟨2023, 1, 1⟩ ⟨2023, 1, 2⟩ {} c9row rfl).1⟩

/-- Duplicate-permalink records used by the C1 counterexample. -/
def c1rowA : Row :=
  { text := "first copy", author_handle := "@alice",
    date := "2023-01-01T10:00:00.000Z",
    url := "https://x.com/alice/status/1" }

/-- Second record with the same permalink but different text. -/
def c1rowB : Row :=
  { text := "second copy", author_handle := "@alice",
    date := "2023-01-01T11:00:00.000Z",
    url := "https://x.com/alice/status/1" }

/-- C1 counterexample: deduplication by permalink happens only for the
spreadsheet file (line 555), not before the JSON write of lines
214-218.  A run that accumulates two in-range records with the same url
writes both of them to the JSON output file, so it is not the case that
no two records written to the run's output files share a url. -/
theorem c1_counterexample :
    jsonRecordsOf (writesOf (fetch_tweets { auth_token := some "tok" }
        [PageEvent.tweet c1rowA, PageEvent.tweet c1rowB])) =
      [c1rowA, c1rowB] ∧
    c1rowA.url = c1rowB.url ∧ c1rowA ≠ c1rowB :=
  ⟨by decide, rfl, by decide⟩

/-- C1 amended: the records written to the spreadsheet file of any run
are deduplicated by url (no two share a url value); the JSON file is
written without deduplication and may contain duplicates. -/
theorem c1_amended_excel_dedup (cfg : RunConfig) (sd ed : PyDate)
    (trace : List PageEvent) :
    List.Pairwise (fun a b => a.url ≠ b.url)
      (excelRecordsOf (fetchRun cfg sd ed trace).writes) := by
  rw [excelRecords_run]
  generalize (fetchLoop sd ed trace {}).tweets_data = rows
  generalize (fetchRun cfg sd ed trace).filename ++ ".xlsx" = out
  simp only [save_to_excel]
  by_cases he : rows.isEmpty
  · rw [if_pos he]
    cases cfg.csvWriteOk <;> simp [excelRecordsOf, excelSel]
  · rw [if_neg he]
    cases hm : mungeAll rows with
    | none => cases cfg.csvWriteOk <;> simp [excelRecordsOf, excelSel]
    | some m =>
      cases hE : cfg.excelWriteOk with
      | true =>
        simp only [if_pos rfl, if_true]
        simpa [excelRecordsOf, excelSel] using dropDupUrl_pairwise m []
      | false =>
        cases cfg.csvWriteOk <;> simp [excelRecordsOf, excelSel]

/-- In-range record used by the C4 counterexample trace. -/
def c4rowGood : Row :=
  { text := "in range", author_handle := "@alice",
    date := "2023-01-01T10:00:00.000Z",
    url := "https://x.com/alice/status/1" }

/-- Too-late record processed tenth in the C4 counterexample trace. -/
def c4rowLate : Row :=
  { text := "late", author_handle := "@alice",
    date := "2023-01-05T10:00:00.000Z",
    url := "https://x.com/alice/status/2" }

/-- In-range record processed eleventh in the C4 counterexample trace. -/
def c4rowGood2 : Row :=
  { text := "in range again", author_handle := "@alice",
    date := "2023-01-02T10:00:00.000Z",
    url := "https://x.com/alice/status/3" }

/-- Trace whose tenth processed record is skipped by the date filter. -/
def c4trace : List PageEvent :=
  List.replicate 9 (PageEvent.tweet c4rowGood) ++
    [PageEvent.tweet c4rowLate, PageEvent.tweet c4rowGood2]

/-- C4 counterexample: the snapshot check of line 184 sits at the end of
the append path only, and iterations that skip a record (date after the
end date, lines 164-167) jump back to the loop head after the count was
already incremented.  In this run the processed count reaches 10 at the
skipped record, an eleventh record is processed afterwards, and no
intermediate snapshot is ever written. -/
theorem c4_counterexample :
    (fetchLoop ⟨2023, 1, 1⟩ ⟨2023, 1, 2⟩ c4trace {}).processedCount = 11 ∧
    (fetchLoop ⟨2023, 1, 1⟩ ⟨2023, 1, 2⟩ c4trace {}).snapshots = [] :=
  ⟨by decide, by decide⟩

/-- C4 amended: an intermediate snapshot is written exactly at the end
of a loop iteration that appends a record and whose incremented
processed count is a multiple of ten, and the snapshot then holds the
whole accumulated record list; iterations that do not append (skipped,
malformed, no tweet, error) never write a snapshot, even when the count
is a multiple of ten. -/
theorem c4_amended_snapshot_iff_append_mod_ten (sd ed : PyDate)
    (s : FetchState) (e : PageEvent) :
    (fetchStep sd ed s e).state.snapshots =
      if (fetchStep sd ed s e).state.tweets_data ≠ s.tweets_data ∧
          (fetchStep sd ed s e).state.processedCount % 10 = 0 then
        s.snapshots ++ [(fetchStep sd ed s e).state.tweets_data]
      else s.snapshots := by
  have hne : ∀ r : Row, s.tweets_data ++ [r] ≠ s.tweets_data := by
    intro r h
    have := congrArg List.length h
    simp at this
  cases e with
  | noTweet => simp [fetchStep, StepResult.state]
  | procError => simp [fetchStep, StepResult.state]
  | tweet row =>
    by_cases hd : row.date = ""
    · simp [fetchStep, hd, appendRow, StepResult.state, hne row]
    · cases hp : fromisoformat (pyReplace row.date "Z" "+00:00") with
      | none => simp [fetchStep, hd, hp, StepResult.state]
      | some d =>
        by_cases h1 : PyDate.lt d.date sd = true
        · simp [fetchStep, hd, hp, h1, StepResult.state]
        · by_cases h2 : PyDate.lt ed d.date = true
          · simp [fetchStep, hd, hp, h1, h2, StepResult.state]
          · simp [fetchStep, hd, hp, h1, h2, appendRow, StepResult.state,
              hne row]

/-- The append path preserves the cumulative-snapshot invariant. -/
theorem c10_append_preserves (st : FetchState) (row : Row) (pc : Nat)
    (pr : List Row) (mn mx : Option PyDateTime)
    (hpre : ∀ a ∈ st.snapshots, ∃ t, a ++ t = st.tweets_data)
    (hpw : List.Pairwise (fun a b => ∃ t, a ++ t = b) st.snapshots) :
    (∀ a ∈ (appendRow st row pc pr mn mx).snapshots,
        ∃ t, a ++ t = (appendRow st row pc pr mn mx).tweets_data) ∧
      List.Pairwise (fun a b => ∃ t, a ++ t = b)
        (appendRow st row pc pr mn mx).snapshots := by
  have hext : ∀ a ∈ st.snapshots, ∃ t, a ++ t = st.tweets_data ++ [row] := by
    intro a ha
    obtain ⟨t, ht⟩ := hpre a ha
    exact ⟨t ++ [row], by rw [← List.append_assoc, ht]⟩
  simp only [appendRow]
  by_cases h10 : pc % 10 = 0
  · constructor
    · intro a ha
      rw [if_pos h10] at ha
      rcases List.mem_append.mp ha with ha' | ha'
      · exact hext a ha'
      · rw [List.mem_singleton.mp ha']
        exact ⟨[], List.append_nil _⟩
    · rw [if_pos h10]
      refine List.pairwise_append.mpr ⟨hpw, ?_, ?_⟩
      · simp
      · intro a ha b hb
        rw [List.mem_singleton.mp hb]
        exact hext a ha
  · constructor
    · intro a ha
      rw [if_neg h10] at ha
      exact hext a ha
    · rw [if_neg h10]
      exact hpw

/-- C10: intermediate snapshots are cumulative.  Every snapshot written
during a run holds an initial segment (in scrape order) of the final
accumulated record list, and for any two snapshots the earlier one is a
list-prefix of the later one. -/
theorem c10_snapshots_cumulative (sd ed : PyDate) (trace : List PageEvent) :
    (∀ a ∈ (fetchLoop sd ed trace {}).snapshots,
      ∃ t, a ++ t = (fetchLoop sd ed trace {}).tweets_data) ∧
    List.Pairwise (fun a b => ∃ t, a ++ t = b)
      (fetchLoop sd ed trace {}).snapshots := by
  refine fetchLoop_inv sd ed
    (fun st => (∀ a ∈ st.snapshots, ∃ t, a ++ t = st.tweets_data) ∧
      List.Pairwise (fun a b => ∃ t, a ++ t = b) st.snapshots)
    ?_ trace {} ⟨by simp, by simp⟩
  intro st e hP _
  obtain ⟨hpre, hpw⟩ := hP
  cases e with
  | noTweet => exact ⟨hpre, hpw⟩
  | procError => exact ⟨hpre, hpw⟩
  | tweet row =>
    by_cases hd : row.date = ""
    · rw [fetchStep_tweet_empty sd ed st row hd]
      exact c10_append_preserves st row (st.processedCount + 1)
        (st.processedRows ++ [row]) st.min_date st.max_date hpre hpw
    · cases hp : fromisoformat (pyReplace row.date "Z" "+00:00") with
      | none =>
        rw [fetchStep_tweet_malformed sd ed st row hd hp]
        exact ⟨hpre, hpw⟩
      | some d =>
        by_cases h1 : PyDate.lt d.date sd = true
        · rw [fetchStep_tweet_early sd ed st row d hd hp h1]
          exact ⟨hpre, hpw⟩
        · rw [Bool.not_eq_true] at h1
          by_cases h2 : PyDate.lt ed d.date = true
          · rw [fetchStep_tweet_late sd ed st row d hd hp h1 h2]
            exact ⟨hpre, hpw⟩
          · rw [Bool.not_eq_true] at h2
            rw [fetchStep_tweet_inrange sd ed st row d hd hp h1 h2]
            exact c10_append_preserves
              { st with min_date := minStep st.min_date d,
                        max_date := maxStep st.max_date d }
              row (st.processedCount + 1) (st.processedRows ++ [row])
              (minStep st.min_date d) (maxStep st.max_date d) hpre hpw

/-- C8: output files are named by inferred author handle and observed
date range.  The collected handle set of a finished loop is exactly the
fold over the persisted records (each nonempty handle with its @ signs
stripped, lines 169-173); the tracked min/max dates are exactly the
fold over the parsed dates of all processed records (lines 142-151,
including records later skipped for being out of range); and the
filename is data/ followed by the single collected handle (when exactly
one was collected, otherwise the username segment of the target URL),
an @ sign, and min_max in %Y-%m-%d (used exactly when at least one date
was parsed: the last two conjuncts), otherwise the current date. -/
theorem c8_output_naming (cfg : RunConfig) (sd ed : PyDate)
    (trace : List PageEvent) :
    ((fetchLoop sd ed trace {}).author_handles =
      collectHandles (fetchLoop sd ed trace {}).tweets_data) ∧
    ((fetchLoop sd ed trace {}).min_date =
      listMinD (parsedDatesOf (fetchLoop sd ed trace {}).processedRows)) ∧
    ((fetchLoop sd ed trace {}).max_date =
      listMaxD (parsedDatesOf (fetchLoop sd ed trace {}).processedRows)) ∧
    ((fetchRun cfg sd ed trace).filename =
      "data/" ++
        nameStem (collectHandles (fetchLoop sd ed trace {}).tweets_data)
          (usernameOf cfg.twitter_url) ++ "@" ++
        mkDateRange
          (listMinD (parsedDatesOf (fetchLoop sd ed trace {}).processedRows))
          (listMaxD (parsedDatesOf (fetchLoop sd ed trace {}).processedRows))
          cfg.today) ∧
    (∀ xs : List PyDateTime, (listMinD xs).isSome ↔ xs ≠ []) ∧
    (∀ xs : List PyDateTime, (listMaxD xs).isSome ↔ xs ≠ []) := by
  have hstep : ∀ st e,
      (st.author_handles = collectHandles st.tweets_data ∧
        st.min_date = listMinD (parsedDatesOf st.processedRows) ∧
        st.max_date = listMaxD (parsedDatesOf st.processedRows)) →
      st.processedCount < maxTweets →
      ((fetchStep sd ed st e).state.author_handles =
        collectHandles (fetchStep sd ed st e).state.tweets_data ∧
      (fetchStep sd ed st e).state.min_date =
        listMinD (parsedDatesOf (fetchStep sd ed st e).state.processedRows) ∧
      (fetchStep sd ed st e).state.max_date =
        listMaxD (parsedDatesOf (fetchStep sd ed st e).state.processedRows)) := by
    intro st e hP _
    obtain ⟨h1, h2, h3⟩ := hP
    cases e with
    | noTweet => exact ⟨h1, h2, h3⟩
    | procError => exact ⟨h1, h2, h3⟩
    | tweet row =>
      by_cases hd : row.date = ""
      · rw [fetchStep_tweet_empty sd ed st row hd]
        refine ⟨?_, ?_, ?_⟩
        · simp only [StepResult.state, appendRow]
          rw [collectHandles_append_one, ← h1]
        · simp only [StepResult.state, appendRow]
          rw [parsedDatesOf_append_one]
          simpa [hd] using h2
        · simp only [StepResult.state, appendRow]
          rw [parsedDatesOf_append_one]
          simpa [hd] using h3
      · cases hp : fromisoformat (pyReplace row.date "Z" "+00:00") with
        | none =>
          rw [fetchStep_tweet_malformed sd ed st row hd hp]
          refine ⟨h1, ?_, ?_⟩
          · simp only [StepResult.state]
            rw [parsedDatesOf_append_one]
            simpa [hd, hp] using h2
          · simp only [StepResult.state]
            rw [parsedDatesOf_append_one]
            simpa [hd, hp] using h3
        | some d =>
          by_cases h4 : PyDate.lt d.date sd = true
          · rw [fetchStep_tweet_early sd ed st row d hd hp h4]
            refine ⟨h1, ?_, ?_⟩
            · simp only [StepResult.state]
              rw [parsedDatesOf_append_one]
              simp [hd, hp, listMinD_append_one, ← h2]
            · simp only [StepResult.state]
              rw [parsedDatesOf_append_one]
              simp [hd, hp, listMaxD_append_one, ← h3]
          · rw [Bool.not_eq_true] at h4
            by_cases h5 : PyDate.lt ed d.date = true
            · rw [fetchStep_tweet_late sd ed st row d hd hp h4 h5]
              refine ⟨h1, ?_, ?_⟩
              · simp only [StepResult.state]
                rw [parsedDatesOf_append_one]
                simp [hd, hp, listMinD_append_one, ← h2]
              · simp only [StepResult.state]
                rw [parsedDatesOf_append_one]
                simp [hd, hp, listMaxD_append_one, ← h3]
            · rw [Bool.not_eq_true] at h5
              rw [fetchStep_tweet_inrange sd ed st row d hd hp h4 h5]
              refine ⟨?_, ?_, ?_⟩
              · simp only [StepResult.state, appendRow]
                rw [collectHandles_append_one, ← h1]
              · simp only [StepResult.state, appendRow]
                rw [parsedDatesOf_append_one]
                simp [hd, hp, listMinD_append_one, ← h2]
              · simp only [StepResult.state, appendRow]
                rw [parsedDatesOf_append_one]
                simp [hd, hp, listMaxD_append_one, ← h3]
  have hinv := fetchLoop_inv sd ed
    (fun st => st.author_handles = collectHandles st.tweets_data ∧
      st.min_date = listMinD (parsedDatesOf st.processedRows) ∧
      st.max_date = listMaxD (parsedDatesOf st.processedRows))
    hstep trace {} ⟨rfl, rfl, rfl⟩
  refine ⟨hinv.1, hinv.2.1, hinv.2.2, ?_, listMinD_isSome_iff, listMaxD_isSome_iff⟩
  simp only [fetchRun]
  rw [← hinv.1, ← hinv.2.1, ← hinv.2.2]

/-- In-range record used to witness C10. -/
def c10row : Row :=
  { text := "snap", author_handle := "@alice",
    date := "2023-01-01T10:00:00.000Z",
    url := "https://x.com/alice/status/4" }

/-- Trace of ten appended records, producing one snapshot. -/
def c10trace : List PageEvent := List.replicate 10 (PageEvent.tweet c10row)

/-- Witness for C10: the one snapshot of a ten-record run is an initial
segment of the final record list. -/
theorem c10_snapshots_cumulative_witness :
    ∃ t, List.replicate 10 c10row ++ t =
      (fetchLoop ⟨2023, 1, 1⟩ ⟨2023, 1, 2⟩ c10trace {}).tweets_data :=
  (c10_snapshots_cumulative ⟨2023, 1, 1⟩ ⟨2023, 1, 2⟩ c10trace).1
    (List.replicate 10 c10row) (by decide)

/-- First undated duplicate record of the C7 counterexample run. -/
def c7rowA : Row :=
  { text := "dup one", date := "", url := "https://x.com/e/status/1" }

/-- Second undated duplicate record of the C7 counterexample run. -/
def c7rowB : Row :=
  { text := "dup two", date := "", url := "https://x.com/e/status/1" }

/-- C7 counterexample: a run in which saving the spreadsheet raises does
not always put the deduplicated data into the CSV fallback.  Here both
accumulated records have an empty date, so the date conversion of lines
549-552 raises before the deduplication of line 555 ever runs; no
spreadsheet file is written even though the spreadsheet write itself
would have succeeded, and the fallback CSV receives the raw records:
two records with the same url, not the deduplicated data. -/
theorem c7_counterexample :
    (fetchRun { auth_token := some "tok" } ⟨2023, 1, 1⟩ ⟨2023, 1, 2⟩
        [PageEvent.tweet c7rowA, PageEvent.tweet c7rowB]).writes =
      [FileWrite.jsonFile "data/elonmusk@2026-10-12.json" [c7rowA, c7rowB],
        FileWrite.csvFile "data/elonmusk@2026-10-12.csv" [c7rowA, c7rowB]] ∧
    c7rowA.url = c7rowB.url ∧ c7rowA ≠ c7rowB :=
  ⟨by decide, rfl, by decide⟩

/-- C7 amended: when the spreadsheet write step itself fails (after the
date conversion succeeded), the deduplicated data is written to a CSV
file at the same path with .xlsx replaced by .csv; and the JSON file of
the run is unaffected by the Excel and CSV outcomes.  (When the save
fails during date conversion instead, the CSV receives the raw,
non-deduplicated frame, as the counterexample shows.) -/
theorem c7_amended_csv_fallback :
    (∀ rows out m, rows ≠ [] → mungeAll rows = some m →
      save_to_excel rows out false true =
        [FileWrite.csvFile (pyReplace out ".xlsx" ".csv") (dropDupUrl m [])] ∧
      List.Pairwise (fun a b => a.url ≠ b.url) (dropDupUrl m [])) ∧
    (∀ cfg sd ed trace, jsonRecordsOf (fetchRun cfg sd ed trace).writes =
      (fetchLoop sd ed trace {}).tweets_data) := by
  constructor
  · intro rows out m hne hm
    constructor
    · have hEmpty : rows.isEmpty = false := by
        cases rows with
        | nil => simp at hne
        | cons a l => rfl
      simp [save_to_excel, hEmpty, hm]
    · exact dropDupUrl_pairwise m []
  · intro cfg sd ed trace
    exact jsonRecords_run cfg sd ed trace

/-- Record with a well-formed date used to witness the amended C7. -/
def c7wRow : Row :=
  { text := "ok", author_handle := "@alice",
    date := "2023-01-01T10:00:00.000Z",
    url := "https://x.com/alice/status/1" }

/-- The same record after the date-column conversion of the Excel step. -/
def c7wRowM : Row := { c7wRow with date := "2023-01-01" }

/-- Witness for the amended C7 at a one-record run whose spreadsheet
write fails. -/
theorem c7_amended_csv_fallback_witness :
    ([c7wRow] ≠ [] ∧ mungeAll [c7wRow] = some [c7wRowM]) ∧
    (save_to_excel [c7wRow] "data/x.xlsx" false true =
      [FileWrite.csvFile (pyReplace "data/x.xlsx" ".xlsx" ".csv")
        (dropDupUrl [c7wRowM] [])] ∧
      List.Pairwise (fun a b => a.url ≠ b.url) (dropDupUrl [c7wRowM] [])) :=
  ⟨⟨by decide, by decide⟩,
    c7_amended_csv_fallback.1 [c7wRow] "data/x.xlsx" [c7wRowM]
      (by decide) (by decide)⟩

end TwitterIngestion
